import Mathlib

/-!
Shallow embedding of `src/TMM_1dim.py` (class `PhotonicCrystal1d`):
a transfer-matrix-method computation of reflection/transmission of a
one-dimensional two-material photonic crystal.  Floating-point numbers
are modelled by real numbers, complex numpy values by `ℂ`, the
string-keyed matrix dictionaries by records of `Option` fields (a key
absent from the dictionary is `none`), and the Python exceptions of
`simulate_rt` by an `Except` result.
-/

noncomputable section

namespace TMM

open Complex

/-- `Eps0 = 8.854e-12` (class attribute of `PhotonicCrystal1d`). -/
def Eps0 : ℝ := 8.854e-12

/-- `Mu0 = 4 * np.pi * 1e-7` (class attribute of `PhotonicCrystal1d`). -/
def Mu0 : ℝ := 4 * Real.pi * 1e-7

/-- A 2×2 complex matrix; `a b; c d` are the entries
`[0,0], [0,1]; [1,0], [1,1]` of the numpy array. -/
structure Mat2 where
  a : ℂ
  b : ℂ
  c : ℂ
  d : ℂ

/-- Matrix product (numpy `@`). -/
def Mat2.mul (A B : Mat2) : Mat2 :=
  ⟨A.a * B.a + A.b * B.c, A.a * B.b + A.b * B.d,
   A.c * B.a + A.d * B.c, A.c * B.b + A.d * B.d⟩

/-- Scalar multiple of a matrix (numpy `s * array`). -/
def Mat2.smul (s : ℂ) (A : Mat2) : Mat2 :=
  ⟨s * A.a, s * A.b, s * A.c, s * A.d⟩

/-- The matrix `.5 * [[1 + delta, 1 - delta], [1 - delta, 1 + delta]]`
built (four times, once per interface kind) in
`calculateTransferMatrices`; the numpy entries are real. -/
def tMat (delta : ℝ) : Mat2 :=
  Mat2.smul (1 / 2 : ℂ)
    ⟨((1 + delta : ℝ) : ℂ), ((1 - delta : ℝ) : ℂ),
     ((1 - delta : ℝ) : ℂ), ((1 + delta : ℝ) : ℂ)⟩

/-- The dictionary `self.transferMatrices`; each field is a key,
`none` when the key has not been written yet. -/
structure TransferTable where
  env2one : Option Mat2
  one2two : Option Mat2
  two2one : Option Mat2
  last2env : Option Mat2

/-- The dictionary `self.propagationMatrices` (keys "one" and "two"). -/
structure PropagationTable where
  one : Option Mat2
  two : Option Mat2

/-- The instance state of class `PhotonicCrystal1d`. -/
structure PhotonicCrystal1d where
  N : ℕ
  d1 : ℝ
  d2 : ℝ
  epsr1 : ℝ
  epsr2 : ℝ
  mur1 : ℝ
  mur2 : ℝ
  Z1 : ℝ
  Z2 : ℝ
  last : Option ℕ
  periods : Option ℕ
  transferMatrices : TransferTable
  propagationMatrices : PropagationTable
  envEpsr : Option ℝ
  envMur : Option ℝ
  omega : Option ℝ

namespace PhotonicCrystal1d

/-- `__init__(self, N, d1, d2, epsr1, epsr2, mur1=1, mur2=1)`. -/
def create (N : ℕ) (d1 d2 epsr1 epsr2 mur1 mur2 : ℝ) : PhotonicCrystal1d where
  N := N
  d1 := d1
  d2 := d2
  epsr1 := epsr1
  epsr2 := epsr2
  mur1 := mur1
  mur2 := mur2
  Z1 := Real.sqrt ((Mu0 * mur1) / (Eps0 * epsr1))
  Z2 := Real.sqrt ((Mu0 * mur2) / (Eps0 * epsr2))
  last := none
  periods := if N % 2 = 0 then some (N / 2) else none
  transferMatrices := ⟨none, none, none, none⟩
  propagationMatrices := ⟨none, none⟩
  envEpsr := none
  envMur := none
  omega := none

/-- `calculateTransferMatrices(self, envEpsr, envMur=1)`: stores the
environment constants and (re)writes all four transfer-matrix
dictionary entries; also sets `self.last` from the parity of `N`. -/
def calculateTransferMatrices (pc : PhotonicCrystal1d) (envEpsr envMur : ℝ) :
    PhotonicCrystal1d :=
  let envZ := Real.sqrt ((Mu0 * envMur) / (Eps0 * envEpsr))
  { pc with
    envEpsr := some envEpsr
    envMur := some envMur
    last := some (if pc.N % 2 = 0 then 2 else 1)
    transferMatrices :=
      { env2one := some (tMat (pc.Z1 / envZ))
        one2two := some (tMat (pc.Z2 / pc.Z1))
        two2one := some (tMat (pc.Z1 / pc.Z2))
        last2env := some (tMat (if pc.N % 2 = 0 then envZ / pc.Z2 else envZ / pc.Z1)) } }

/-- `calculatePropagationMatrices(self, omega)`: stores the angular
frequency and (re)writes both propagation-matrix entries. -/
def calculatePropagationMatrices (pc : PhotonicCrystal1d) (omega : ℝ) :
    PhotonicCrystal1d :=
  let k1 := omega * Real.sqrt (Eps0 * Mu0 * pc.epsr1 * pc.mur1)
  let k2 := omega * Real.sqrt (Eps0 * Mu0 * pc.epsr2 * pc.mur2)
  { pc with
    omega := some omega
    propagationMatrices :=
      { one := some ⟨Complex.exp (Complex.I * k1 * pc.d1), 0,
                     0, Complex.exp (-(Complex.I * k1 * pc.d1))⟩
        two := some ⟨Complex.exp (Complex.I * k2 * pc.d2), 0,
                     0, Complex.exp (-(Complex.I * k2 * pc.d2))⟩ } }

/-- The ways `simulate_rt` can fail: the explicit
`ValueError("Params not initialized!")`, the `assert flag == 0`, and a
dictionary lookup on a key that was never written (Python `KeyError`,
or the `TypeError` from `self.last - 1` with `last` still `None`). -/
inductive SimError where
  | uninitialized
  | assertionFailed
  | missingEntry
deriving DecidableEq

/-- The value `simulate_rt` returns: the complex pair `(r, t)` when
`RT=False`, the real pair `(R, T)` when `RT=True`. -/
inductive SimResult where
  | amp (r t : ℂ)
  | pow (R T : ℝ)

/-- One iteration of the `for layer in range(self.N-1)` loop body of
`simulate_rt`, acting on the pair `(Q, flag)`. -/
def cascadeStep (pOne pTwo two2one one2two : Mat2) : Mat2 × ℕ → Mat2 × ℕ
  | (Q, flag) =>
    if flag = 0 then ((Q.mul pOne).mul two2one, (flag + 1) % 2)
    else ((Q.mul pTwo).mul one2two, (flag + 1) % 2)

/-- `simulate_rt(self, RT=False)`. -/
def simulate_rt (pc : PhotonicCrystal1d) (RT : Bool) : Except SimError SimResult :=
  if pc.envEpsr.isNone || pc.omega.isNone then
    Except.error SimError.uninitialized
  else
    match pc.last, pc.transferMatrices.last2env, pc.transferMatrices.two2one,
        pc.transferMatrices.one2two, pc.transferMatrices.env2one,
        pc.propagationMatrices.one, pc.propagationMatrices.two with
    | some last, some mLast2env, some mTwo2one, some mOne2two, some mEnv2one,
        some pOne, some pTwo =>
      let res := (cascadeStep pOne pTwo mTwo2one mOne2two)^[pc.N - 1] (mLast2env, last - 1)
      if res.2 = 0 then
        let Q := (res.1.mul pOne).mul mEnv2one
        let r := -Q.c / Q.d
        let t := Q.a - Q.b * Q.c / Q.d
        if RT then
          Except.ok (SimResult.pow (Complex.abs r ^ 2) (1 - Complex.abs r ^ 2))
        else
          Except.ok (SimResult.amp r t)
      else
        Except.error SimError.assertionFailed
    | _, _, _, _, _, _, _ => Except.error SimError.missingEntry

/-- A model constructed and then configured in the driver's order:
`calculateTransferMatrices` followed by `calculatePropagationMatrices`. -/
def readyState (N : ℕ) (d1 d2 epsr1 epsr2 mur1 mur2 envEpsr envMur omega : ℝ) :
    PhotonicCrystal1d :=
  calculatePropagationMatrices
    (calculateTransferMatrices (create N d1 d2 epsr1 epsr2 mur1 mur2) envEpsr envMur)
    omega

/-- One mutating configuration call on a model: the only two operations
that touch the initialization state checked by `simulate_rt`. -/
inductive OpKind where
  | setEnv (envEpsr envMur : ℝ)
  | setFreq (omega : ℝ)

/-- Apply one configuration call. -/
def applyOp (pc : PhotonicCrystal1d) : OpKind → PhotonicCrystal1d
  | OpKind.setEnv e m => pc.calculateTransferMatrices e m
  | OpKind.setFreq ω => pc.calculatePropagationMatrices ω

/-- Run a sequence of configuration calls, oldest first. -/
def runOps (pc : PhotonicCrystal1d) (ops : List OpKind) : PhotonicCrystal1d :=
  ops.foldl applyOp pc

/-- Whether a configuration call is a `calculateTransferMatrices` call. -/
def OpKind.isSetEnv : OpKind → Bool
  | OpKind.setEnv _ _ => true
  | OpKind.setFreq _ => false

/-- Whether a configuration call is a `calculatePropagationMatrices` call. -/
def OpKind.isSetFreq : OpKind → Bool
  | OpKind.setEnv _ _ => false
  | OpKind.setFreq _ => true

end PhotonicCrystal1d

/-! ## Spec-side definitions

These follow the wording of the specification (sections 3 and 4.1), to be
compared with the embedded code above. -/

/-- Spec §3: the impedance-matching interface matrix
`0.5·[[1+δ, 1−δ],[1−δ, 1+δ]]`. -/
def specInterfaceMat (δ : ℝ) : Mat2 :=
  Mat2.smul (1 / 2 : ℂ)
    ⟨((1 + δ : ℝ) : ℂ), ((1 - δ : ℝ) : ℂ),
     ((1 - δ : ℝ) : ℂ), ((1 + δ : ℝ) : ℂ)⟩

/-- Spec §3: the diagonal propagation matrix with entries `exp(±i·k·d)`. -/
def specPropMat (k d : ℝ) : Mat2 :=
  ⟨Complex.exp (Complex.I * k * d), 0, 0, Complex.exp (-(Complex.I * k * d))⟩

/-- Spec §4.1 cascade loop: given the number of remaining steps and the
layer-type flag, right-multiply `Q` by the propagation matrix of the
current layer type, then by the crossing transfer matrix ("two2one" for
type 1, "one2two" for type 2), and flip the flag between 0 and 1. -/
def specLoop (pOne pTwo two2one one2two : Mat2) : ℕ → ℕ → Mat2 → Mat2
  | 0, _, Q => Q
  | steps + 1, flag, Q =>
    if flag = 0 then
      specLoop pOne pTwo two2one one2two steps 1 ((Q.mul pOne).mul two2one)
    else
      specLoop pOne pTwo two2one one2two steps 0 ((Q.mul pTwo).mul one2two)

/-- Spec §4.1 `simulate`, written from the spec's words alone: build the
impedances, the four interface matrices and the two propagation matrices,
initialize `Q` to "last2env", run the loop `layerCount − 1` times starting
from flag `last − 1`, close with the type-1 propagation matrix and
"env2one", and read off `r = −Q[1,0]/Q[1,1]` and
`t = Q[0,0] − Q[0,1]·Q[1,0]/Q[1,1]`. -/
def spec_simulate (N : ℕ) (d1 d2 epsr1 epsr2 mur1 mur2 envEpsr envMur omega : ℝ) :
    ℂ × ℂ :=
  let Z1 := Real.sqrt ((Mu0 * mur1) / (Eps0 * epsr1))
  let Z2 := Real.sqrt ((Mu0 * mur2) / (Eps0 * epsr2))
  let envZ := Real.sqrt ((Mu0 * envMur) / (Eps0 * envEpsr))
  let last : ℕ := if N % 2 = 0 then 2 else 1
  let k1 := omega * Real.sqrt (Eps0 * Mu0 * epsr1 * mur1)
  let k2 := omega * Real.sqrt (Eps0 * Mu0 * epsr2 * mur2)
  let pOne := specPropMat k1 d1
  let pTwo := specPropMat k2 d2
  let Qloop := specLoop pOne pTwo (specInterfaceMat (Z1 / Z2)) (specInterfaceMat (Z2 / Z1))
    (N - 1) (last - 1)
    (specInterfaceMat (if N % 2 = 0 then envZ / Z2 else envZ / Z1))
  let Q := (Qloop.mul pOne).mul (specInterfaceMat (Z1 / envZ))
  (-Q.c / Q.d, Q.a - Q.b * Q.c / Q.d)

/-- The identity 2×2 matrix. -/
def Mat2.id : Mat2 := ⟨1, 0, 0, 1⟩

/-- How the `RT=True` return value of `simulate_rt` arises from the
`RT=False` one: an amplitude pair `(r, t)` becomes the power pair
`(|r|², 1 − |r|²)`. -/
def toPowerPair : PhotonicCrystal1d.SimResult → PhotonicCrystal1d.SimResult
  | PhotonicCrystal1d.SimResult.amp r t =>
      PhotonicCrystal1d.SimResult.pow (Complex.abs r ^ 2) (1 - Complex.abs r ^ 2)
  | PhotonicCrystal1d.SimResult.pow R T => PhotonicCrystal1d.SimResult.pow R T

open PhotonicCrystal1d in
/-- The final cascade matrix `Q` (after line
`Q = Q @ self.transferMatrices["env2one"]`) that `simulate_rt` computes
on a model prepared by `readyState`, with all stored matrices written
out explicitly. -/
def rsQ (N : ℕ) (d1 d2 epsr1 epsr2 mur1 mur2 envEpsr envMur omega : ℝ) : Mat2 :=
  let Z1 := Real.sqrt ((Mu0 * mur1) / (Eps0 * epsr1))
  let Z2 := Real.sqrt ((Mu0 * mur2) / (Eps0 * epsr2))
  let envZ := Real.sqrt ((Mu0 * envMur) / (Eps0 * envEpsr))
  let k1 := omega * Real.sqrt (Eps0 * Mu0 * epsr1 * mur1)
  let k2 := omega * Real.sqrt (Eps0 * Mu0 * epsr2 * mur2)
  let pOne : Mat2 := ⟨Complex.exp (Complex.I * k1 * d1), 0, 0,
    Complex.exp (-(Complex.I * k1 * d1))⟩
  let pTwo : Mat2 := ⟨Complex.exp (Complex.I * k2 * d2), 0, 0,
    Complex.exp (-(Complex.I * k2 * d2))⟩
  let res := (cascadeStep pOne pTwo (tMat (Z1 / Z2)) (tMat (Z2 / Z1)))^[N - 1]
    (tMat (if N % 2 = 0 then envZ / Z2 else envZ / Z1), (if N % 2 = 0 then 2 else 1) - 1)
  (res.1.mul pOne).mul (tMat (Z1 / envZ))

/-! ## Helper lemmas -/

theorem Eps0_pos : 0 < Eps0 := by norm_num [Eps0]

theorem Mu0_pos : 0 < Mu0 := by
  unfold Mu0
  positivity

theorem Mat2.id_mul (A : Mat2) : Mat2.id.mul A = A := by
  simp [Mat2.mul, Mat2.id]

theorem Mat2.mul_id (A : Mat2) : A.mul Mat2.id = A := by
  simp [Mat2.mul, Mat2.id]

/-- The interface matrix at impedance ratio 1 is the identity. -/
theorem tMat_one : tMat 1 = Mat2.id := by
  simp only [tMat, Mat2.smul, Mat2.id, Mat2.mk.injEq]
  norm_num

/-- The flag component of the cascade loop: the flag only ever steps by
`(flag + 1) % 2`, so after `j` iterations it is `(f + j) % 2`. -/
theorem cascadeStep_iterate_snd (pOne pTwo t21 t12 : Mat2) (j : ℕ) :
    ∀ (Q : Mat2) (f : ℕ), f < 2 →
      ((PhotonicCrystal1d.cascadeStep pOne pTwo t21 t12)^[j] (Q, f)).2 = (f + j) % 2 := by
  induction j with
  | zero => intro Q f hf; simp [Nat.mod_eq_of_lt hf]
  | succ n ih =>
    intro Q f hf
    rw [Function.iterate_succ_apply]
    interval_cases f
    · rw [show PhotonicCrystal1d.cascadeStep pOne pTwo t21 t12 (Q, 0)
            = ((Q.mul pOne).mul t21, 1) from rfl]
      rw [ih _ 1 (by omega)]
      omega
    · rw [show PhotonicCrystal1d.cascadeStep pOne pTwo t21 t12 (Q, 1)
            = ((Q.mul pTwo).mul t12, 0) from rfl]
      rw [ih _ 0 (by omega)]
      omega

/-- The matrix component of the cascade loop agrees with the spec-side
loop for flags in `{0, 1}`. -/
theorem cascadeStep_iterate_fst (pOne pTwo t21 t12 : Mat2) (j : ℕ) :
    ∀ (Q : Mat2) (f : ℕ), f < 2 →
      ((PhotonicCrystal1d.cascadeStep pOne pTwo t21 t12)^[j] (Q, f)).1 =
        specLoop pOne pTwo t21 t12 j f Q := by
  induction j with
  | zero => intro Q f _; simp [specLoop]
  | succ n ih =>
    intro Q f hf
    rw [Function.iterate_succ_apply]
    interval_cases f
    · rw [show PhotonicCrystal1d.cascadeStep pOne pTwo t21 t12 (Q, 0)
            = ((Q.mul pOne).mul t21, 1) from rfl]
      rw [ih _ 1 (by omega)]
      simp [specLoop]
    · rw [show PhotonicCrystal1d.cascadeStep pOne pTwo t21 t12 (Q, 1)
            = ((Q.mul pTwo).mul t12, 0) from rfl]
      rw [ih _ 0 (by omega)]
      simp [specLoop]

/-- The code's transfer-matrix builder and the spec's interface form
coincide. -/
theorem tMat_eq_specInterfaceMat (δ : ℝ) : tMat δ = specInterfaceMat δ := rfl

open PhotonicCrystal1d in
/-- When at least one layer is present, the flag is 0 again after the
`N − 1` loop iterations, whatever the matrices involved. -/
theorem flag_final_zero (N : ℕ) (h : 1 ≤ N) :
    ∀ (p1 p2 t21 t12 L : Mat2),
      ((cascadeStep p1 p2 t21 t12)^[N - 1] (L, (if N % 2 = 0 then 2 else 1) - 1)).2 = 0 := by
  intro p1 p2 t21 t12 L
  rw [cascadeStep_iterate_snd p1 p2 t21 t12 (N - 1) L _ (by split <;> omega)]
  rcases Nat.mod_two_eq_zero_or_one N with h2 | h2 <;> simp [h2] <;> omega

open PhotonicCrystal1d in
/-- Master evaluation: on a model configured by `readyState` with at
least one layer, `simulate_rt` succeeds and returns the amplitudes (or
the power pair) read off the cascade matrix `rsQ`. -/
theorem simulate_rt_readyState_eq (N : ℕ) (d1 d2 e1 e2 m1 m2 eE eM ω : ℝ) (RT : Bool)
    (h : 1 ≤ N) :
    simulate_rt (readyState N d1 d2 e1 e2 m1 m2 eE eM ω) RT =
      (let Q := rsQ N d1 d2 e1 e2 m1 m2 eE eM ω
       let r := -Q.c / Q.d
       let t := Q.a - Q.b * Q.c / Q.d
       if RT then Except.ok (SimResult.pow (Complex.abs r ^ 2) (1 - Complex.abs r ^ 2))
       else Except.ok (SimResult.amp r t)) := by
  simp [simulate_rt, readyState, calculatePropagationMatrices, calculateTransferMatrices,
    create, rsQ, flag_final_zero N h]

open PhotonicCrystal1d in
/-- On any state whatsoever, the `RT=True` result of `simulate_rt` is
obtained from the `RT=False` result by replacing a successful amplitude
pair `(r, t)` with `(|r|², 1 − |r|²)`. -/
theorem simulate_rt_true_eq_map (pc : PhotonicCrystal1d) :
    pc.simulate_rt true = (pc.simulate_rt false).map toPowerPair := by
  obtain ⟨N, d1, d2, e1, e2, m1, m2, Z1, Z2, last, per, ⟨te, t12, t21, tl⟩, ⟨p1, p2⟩,
    ee, em, om⟩ := pc
  rcases ee with _ | ee <;> rcases om with _ | om <;>
    rcases last with _ | last <;>
    rcases tl with _ | tl <;> rcases t21 with _ | t21 <;> rcases t12 with _ | t12 <;>
    rcases te with _ | te <;> rcases p1 with _ | p1 <;> rcases p2 with _ | p2 <;>
    simp [simulate_rt, toPowerPair, Except.map] <;>
    (try (split <;> simp [toPowerPair]))

open PhotonicCrystal1d in
/-- On any state, whenever `simulate_rt` with `RT=True` succeeds, the
two returned power coefficients sum to 1 exactly. -/
theorem simulate_rt_pow_sum (pc : PhotonicCrystal1d) (R T : ℝ)
    (h : pc.simulate_rt true = Except.ok (SimResult.pow R T)) : R + T = 1 := by
  obtain ⟨N, d1, d2, e1, e2, m1, m2, Z1, Z2, last, per, ⟨te, t12, t21, tl⟩, ⟨p1, p2⟩,
    ee, em, om⟩ := pc
  rcases ee with _ | ee <;> rcases om with _ | om <;>
    rcases last with _ | last <;>
    rcases tl with _ | tl <;> rcases t21 with _ | t21 <;> rcases t12 with _ | t12 <;>
    rcases te with _ | te <;> rcases p1 with _ | p1 <;> rcases p2 with _ | p2 <;>
    simp [simulate_rt] at h <;>
    · split at h
      · simp only [Except.ok.injEq, SimResult.pow.injEq] at h
        obtain ⟨hR, hT⟩ := h
        linarith
      · simp at h

open PhotonicCrystal1d in
/-- The environment field survives a sequence of configuration calls
exactly when it was already set or some call is a `setEnv`. -/
theorem runOps_envEpsr_isNone (ops : List OpKind) :
    ∀ pc : PhotonicCrystal1d,
      (runOps pc ops).envEpsr.isNone =
        (pc.envEpsr.isNone && !(ops.any OpKind.isSetEnv)) := by
  induction ops with
  | nil => intro pc; simp [runOps]
  | cons op rest ih =>
    intro pc
    rw [show runOps pc (op :: rest) = runOps (applyOp pc op) rest from rfl, ih]
    cases op with
    | setEnv e m => simp [applyOp, OpKind.isSetEnv, calculateTransferMatrices]
    | setFreq ω => simp [applyOp, OpKind.isSetEnv, calculatePropagationMatrices]

open PhotonicCrystal1d in
/-- The frequency field survives a sequence of configuration calls
exactly when it was already set or some call is a `setFreq`. -/
theorem runOps_omega_isNone (ops : List OpKind) :
    ∀ pc : PhotonicCrystal1d,
      (runOps pc ops).omega.isNone =
        (pc.omega.isNone && !(ops.any OpKind.isSetFreq)) := by
  induction ops with
  | nil => intro pc; simp [runOps]
  | cons op rest ih =>
    intro pc
    rw [show runOps pc (op :: rest) = runOps (applyOp pc op) rest from rfl, ih]
    cases op with
    | setEnv e m => simp [applyOp, OpKind.isSetFreq, calculateTransferMatrices]
    | setFreq ω => simp [applyOp, OpKind.isSetFreq, calculatePropagationMatrices]

open PhotonicCrystal1d in
/-- `simulate_rt` returns the Uninitialized-State error precisely when
the stored environment permittivity or the stored frequency is absent;
no other execution path produces that error. -/
theorem simulate_rt_uninit_iff (pc : PhotonicCrystal1d) (RT : Bool) :
    pc.simulate_rt RT = Except.error SimError.uninitialized ↔
      (pc.envEpsr.isNone || pc.omega.isNone) = true := by
  obtain ⟨N, d1, d2, e1, e2, m1, m2, Z1, Z2, last, per, ⟨te, t12, t21, tl⟩, ⟨p1, p2⟩,
    ee, em, om⟩ := pc
  cases RT <;>
    rcases ee with _ | ee <;> rcases om with _ | om <;>
    rcases last with _ | last <;>
    rcases tl with _ | tl <;> rcases t21 with _ | t21 <;> rcases t12 with _ | t12 <;>
    rcases te with _ | te <;> rcases p1 with _ | p1 <;> rcases p2 with _ | p2 <;>
    simp [simulate_rt] <;>
    (try (split <;> simp))

open PhotonicCrystal1d in
/-- With one layer and all materials matching the environment, every
impedance ratio is 1, every transfer matrix the identity, and the final
cascade matrix is the type-1 propagation matrix itself. -/
theorem rsQ_trivial (dd1 dd2 ω : ℝ) :
    rsQ 1 dd1 dd2 1 1 1 1 1 1 ω =
      ⟨Complex.exp (Complex.I * (ω * Real.sqrt (Eps0 * Mu0 * 1 * 1)) * dd1), 0, 0,
       Complex.exp (-(Complex.I * (ω * Real.sqrt (Eps0 * Mu0 * 1 * 1)) * dd1))⟩ := by
  have hZ : Real.sqrt (Mu0 / Eps0) ≠ 0 := by
    refine ne_of_gt (Real.sqrt_pos.mpr ?_)
    have h1 := Mu0_pos
    have h2 := Eps0_pos
    positivity
  simp [rsQ, div_self hZ, tMat_one, Mat2.id_mul, Mat2.mul_id]

open PhotonicCrystal1d in
/-- Trivial-stack evaluation, power form: `R = 0`, `T = 1`. -/
theorem simulate_trivial_true (dd1 dd2 ω : ℝ) :
    simulate_rt (readyState 1 dd1 dd2 1 1 1 1 1 1 ω) true =
      Except.ok (SimResult.pow 0 1) := by
  rw [simulate_rt_readyState_eq 1 dd1 dd2 1 1 1 1 1 1 ω true (by norm_num)]
  simp [rsQ_trivial]

open PhotonicCrystal1d in
/-- Trivial-stack evaluation, amplitude form: `r = 0` and `t` is the
bare propagation phase factor. -/
theorem simulate_trivial_false (dd1 dd2 ω : ℝ) :
    simulate_rt (readyState 1 dd1 dd2 1 1 1 1 1 1 ω) false =
      Except.ok (SimResult.amp 0
        (Complex.exp (Complex.I * (ω * Real.sqrt (Eps0 * Mu0 * 1 * 1)) * dd1))) := by
  rw [simulate_rt_readyState_eq 1 dd1 dd2 1 1 1 1 1 1 ω false (by norm_num)]
  simp [rsQ_trivial]

open PhotonicCrystal1d in
/-- C1: For every model with `layerCount N ≥ 1` whose environment and
frequency have been set, `simulate_rt` follows exactly the spec's
cascade: `Q` starts as "last2env", the flag starts at `last − 1`, the
loop runs `N − 1` iterations (propagation matrix of the current type,
then "two2one" when the flag is 0 and "one2two" when it is 1, flag
flipped each step), then the type-1 propagation matrix and "env2one"
close the cascade, and `r = −Q[1,0]/Q[1,1]`,
`t = Q[0,0] − Q[0,1]·Q[1,0]/Q[1,1]` are returned. -/
theorem C1_simulate_follows_spec_cascade (N : ℕ) (d1 d2 e1 e2 m1 m2 eE eM ω : ℝ)
    (h : 1 ≤ N) :
    simulate_rt (readyState N d1 d2 e1 e2 m1 m2 eE eM ω) false =
      Except.ok (SimResult.amp (spec_simulate N d1 d2 e1 e2 m1 m2 eE eM ω).1
        (spec_simulate N d1 d2 e1 e2 m1 m2 eE eM ω).2) := by
  rw [simulate_rt_readyState_eq N d1 d2 e1 e2 m1 m2 eE eM ω false h]
  have hfst := fun (p1 p2 t21 t12 L : Mat2) =>
    cascadeStep_iterate_fst p1 p2 t21 t12 (N - 1) L ((if N % 2 = 0 then 2 else 1) - 1)
      (by split <;> omega)
  simp [spec_simulate, rsQ, specPropMat, hfst, tMat_eq_specInterfaceMat]

open PhotonicCrystal1d in
/-- C1 witness: the cascade refinement at the concrete one-layer model
with unit parameters. -/
theorem C1_simulate_follows_spec_cascade_witness :
    (1 ≤ 1) ∧
    simulate_rt (readyState 1 1 1 1 1 1 1 1 1 1) false =
      Except.ok (SimResult.amp (spec_simulate 1 1 1 1 1 1 1 1 1 1).1
        (spec_simulate 1 1 1 1 1 1 1 1 1 1).2) :=
  ⟨by norm_num, C1_simulate_follows_spec_cascade 1 1 1 1 1 1 1 1 1 1 (by norm_num)⟩

open PhotonicCrystal1d in
/-- C2: With `RT=True`, `simulate_rt` returns `(R, T)` with `R = |r|²`
and `T = 1 − R`, where `r` is the complex reflection amplitude the
`RT=False` call returns; consequently `R + T = 1` whenever the power
pair is produced.  With `RT=False` the same call returns the complex
pair `(r, t)` (that is how `toPowerPair` reads the mapped value). -/
theorem C2_power_pair :
    (∀ pc : PhotonicCrystal1d,
      pc.simulate_rt true = (pc.simulate_rt false).map toPowerPair) ∧
    (∀ (pc : PhotonicCrystal1d) (R T : ℝ),
      pc.simulate_rt true = Except.ok (SimResult.pow R T) → R + T = 1) :=
  ⟨simulate_rt_true_eq_map, simulate_rt_pow_sum⟩

open PhotonicCrystal1d in
/-- C2 witness: a concrete configured model on which both conjuncts
apply, with the power pair `(0, 1)`. -/
theorem C2_power_pair_witness :
    simulate_rt (readyState 1 1 1 1 1 1 1 1 1 1) true =
      (simulate_rt (readyState 1 1 1 1 1 1 1 1 1 1) false).map toPowerPair ∧
    (0 : ℝ) + 1 = 1 :=
  ⟨C2_power_pair.1 (readyState 1 1 1 1 1 1 1 1 1 1),
   C2_power_pair.2 (readyState 1 1 1 1 1 1 1 1 1 1) 0 1 (simulate_trivial_true 1 1 1)⟩

open PhotonicCrystal1d in
/-- C3: After any sequence of configuration calls on a freshly
constructed model, `simulate_rt` raises the Uninitialized-State error
(returning no result at all — the embedding is purely functional, so
the model state is untouched) if and only if not both the environment
and the frequency have been set at least once. -/
theorem C3_uninitialized_iff (N : ℕ) (d1 d2 e1 e2 m1 m2 : ℝ) (ops : List OpKind)
    (RT : Bool) :
    simulate_rt (runOps (create N d1 d2 e1 e2 m1 m2) ops) RT =
        Except.error SimError.uninitialized ↔
      ¬(ops.any OpKind.isSetEnv = true ∧ ops.any OpKind.isSetFreq = true) := by
  rw [simulate_rt_uninit_iff,
    runOps_envEpsr_isNone ops (create N d1 d2 e1 e2 m1 m2),
    runOps_omega_isNone ops (create N d1 d2 e1 e2 m1 m2)]
  cases hA : ops.any OpKind.isSetEnv <;> cases hB : ops.any OpKind.isSetFreq <;>
    simp [create, hA, hB]

open PhotonicCrystal1d in
/-- C4: For every `layerCount N ≥ 1`, even or odd, once the environment
and the frequency have been set the terminal flag check of the cascade
loop holds (the flag is 0 after the `N − 1` iterations, whatever the
matrices), so the Internal-Consistency assertion branch is unreachable
and `simulate_rt` never returns that error. -/
theorem C4_assertion_unreachable (N : ℕ) (d1 d2 e1 e2 m1 m2 eE eM ω : ℝ)
    (h : 1 ≤ N) :
    (∀ p1 p2 t21 t12 L : Mat2,
      ((cascadeStep p1 p2 t21 t12)^[N - 1] (L, (if N % 2 = 0 then 2 else 1) - 1)).2 = 0) ∧
    (∀ RT : Bool, simulate_rt (readyState N d1 d2 e1 e2 m1 m2 eE eM ω) RT ≠
      Except.error SimError.assertionFailed) := by
  refine ⟨flag_final_zero N h, fun RT => ?_⟩
  rw [simulate_rt_readyState_eq N d1 d2 e1 e2 m1 m2 eE eM ω RT h]
  cases RT <;> simp

open PhotonicCrystal1d in
/-- C4 witness: the flag check and the absence of the assertion error
at the concrete even layer count 2. -/
theorem C4_assertion_unreachable_witness :
    (1 ≤ 2) ∧
    ((cascadeStep Mat2.id Mat2.id Mat2.id Mat2.id)^[2 - 1]
      (Mat2.id, (if 2 % 2 = 0 then 2 else 1) - 1)).2 = 0 ∧
    simulate_rt (readyState 2 1 1 1 1 1 1 1 1 1) true ≠
      Except.error SimError.assertionFailed :=
  ⟨by norm_num,
   (C4_assertion_unreachable 2 1 1 1 1 1 1 1 1 1 (by norm_num)).1
     Mat2.id Mat2.id Mat2.id Mat2.id Mat2.id,
   (C4_assertion_unreachable 2 1 1 1 1 1 1 1 1 1 (by norm_num)).2 true⟩

open PhotonicCrystal1d in
/-- C7: For the minimal stack (`layerCount = 1`) with both materials
and the environment all at `εr = μr = 1`, `simulate_rt` yields `R = 0`
and `T = 1` (and complex amplitude `r = 0`) at every angular frequency,
and all four stored transfer matrices are the identity. -/
theorem C7_trivial_stack (d1 d2 ω : ℝ) :
    simulate_rt (readyState 1 d1 d2 1 1 1 1 1 1 ω) true =
      Except.ok (SimResult.pow 0 1) ∧
    (∃ t : ℂ, simulate_rt (readyState 1 d1 d2 1 1 1 1 1 1 ω) false =
      Except.ok (SimResult.amp 0 t)) ∧
    (readyState 1 d1 d2 1 1 1 1 1 1 ω).transferMatrices.env2one = some Mat2.id ∧
    (readyState 1 d1 d2 1 1 1 1 1 1 ω).transferMatrices.one2two = some Mat2.id ∧
    (readyState 1 d1 d2 1 1 1 1 1 1 ω).transferMatrices.two2one = some Mat2.id ∧
    (readyState 1 d1 d2 1 1 1 1 1 1 ω).transferMatrices.last2env = some Mat2.id := by
  have hZ : Real.sqrt (Mu0 / Eps0) ≠ 0 := by
    refine ne_of_gt (Real.sqrt_pos.mpr ?_)
    have h1 := Mu0_pos
    have h2 := Eps0_pos
    positivity
  refine ⟨simulate_trivial_true d1 d2 ω, ⟨_, simulate_trivial_false d1 d2 ω⟩,
    ?_, ?_, ?_, ?_⟩ <;>
    simp [readyState, calculatePropagationMatrices, calculateTransferMatrices, create,
      div_self hZ, tMat_one]

open PhotonicCrystal1d in
/-- C10: With `layerCount = 0` (accepted without error by `create`),
after environment and frequency are set, `simulate_rt` returns the
Internal-Consistency assertion failure instead of a result: 0 is even,
so the flag starts at 1, the loop body runs zero times, and the
terminal flag-equals-0 check fails. -/
theorem C10_zero_layers_assertion (d1 d2 e1 e2 m1 m2 eE eM ω : ℝ) (RT : Bool) :
    simulate_rt (readyState 0 d1 d2 e1 e2 m1 m2 eE eM ω) RT =
      Except.error SimError.assertionFailed := by
  simp [simulate_rt, readyState, calculatePropagationMatrices,
    calculateTransferMatrices, create]

open PhotonicCrystal1d in
/-- C5: After every call to `calculateTransferMatrices` (the spec's
`setEnvironment`), each of the four stored transfer matrices has the
exact form `0.5·[[1+δ, 1−δ],[1−δ, 1+δ]]` with `δ` being `Z1/envZ` for
"env2one", `Z2/Z1` for "one2two", `Z1/Z2` for "two2one", and `envZ/Z2`
(layer count even) or `envZ/Z1` (odd) for "last2env". -/
theorem C5_transfer_matrix_form (pc : PhotonicCrystal1d) (envEpsr envMur : ℝ) :
    ((pc.calculateTransferMatrices envEpsr envMur).transferMatrices.env2one =
      some (specInterfaceMat (pc.Z1 / Real.sqrt ((Mu0 * envMur) / (Eps0 * envEpsr))))) ∧
    ((pc.calculateTransferMatrices envEpsr envMur).transferMatrices.one2two =
      some (specInterfaceMat (pc.Z2 / pc.Z1))) ∧
    ((pc.calculateTransferMatrices envEpsr envMur).transferMatrices.two2one =
      some (specInterfaceMat (pc.Z1 / pc.Z2))) ∧
    ((pc.calculateTransferMatrices envEpsr envMur).transferMatrices.last2env =
      some (specInterfaceMat (if pc.N % 2 = 0 then
        Real.sqrt ((Mu0 * envMur) / (Eps0 * envEpsr)) / pc.Z2
      else
        Real.sqrt ((Mu0 * envMur) / (Eps0 * envEpsr)) / pc.Z1))) := by
  refine ⟨rfl, rfl, rfl, ?_⟩
  by_cases h : pc.N % 2 = 0 <;>
    simp [PhotonicCrystal1d.calculateTransferMatrices, h, tMat_eq_specInterfaceMat]

open PhotonicCrystal1d in
/-- C6: After every call to `calculatePropagationMatrices` (the spec's
`setFrequency`) with angular frequency `ω`, the two stored propagation
matrices are diagonal with entries `exp(±i·k·d)` for the layer's
wavenumber `k = ω·sqrt(ε0·μ0·εr·μr)` and thickness `d`, and the two
diagonal entries are exact complex conjugates of each other. -/
theorem C6_propagation_matrix_form (pc : PhotonicCrystal1d) (omega : ℝ) :
    ((pc.calculatePropagationMatrices omega).propagationMatrices.one =
      some (specPropMat (omega * Real.sqrt (Eps0 * Mu0 * pc.epsr1 * pc.mur1)) pc.d1)) ∧
    ((pc.calculatePropagationMatrices omega).propagationMatrices.two =
      some (specPropMat (omega * Real.sqrt (Eps0 * Mu0 * pc.epsr2 * pc.mur2)) pc.d2)) ∧
    (∀ k d : ℝ, (specPropMat k d).b = 0 ∧ (specPropMat k d).c = 0 ∧
      (starRingEnd ℂ) (specPropMat k d).a = (specPropMat k d).d) := by
  refine ⟨rfl, rfl, fun k d => ⟨rfl, rfl, ?_⟩⟩
  rw [specPropMat, ← Complex.exp_conj]
  congr 1
  simp [map_mul, Complex.conj_I]

open PhotonicCrystal1d in
/-- C8 counterexample: immediately after construction with
`layerCount = 4` (even), the stored `last` field is NOT 2 — it is still
unset (`None`); the parity is only recorded by
`calculateTransferMatrices`. -/
theorem C8_counterexample :
    ¬ ((create 4 1 1 1 1 1 1).last = some 2) := by
  simp [create]

open PhotonicCrystal1d in
/-- C8 amended: construction leaves the `last` layer-type field unset
(`None`); it is the first call to `calculateTransferMatrices` (the
spec's `setEnvironment`) that stores `last = 2` when `layerCount` is
even and `last = 1` when it is odd. -/
theorem C8_last_set_by_setEnvironment (N : ℕ) (d1 d2 epsr1 epsr2 mur1 mur2 e m : ℝ) :
    ((create N d1 d2 epsr1 epsr2 mur1 mur2).last = none) ∧
    (((create N d1 d2 epsr1 epsr2 mur1 mur2).calculateTransferMatrices e m).last =
      some (if N % 2 = 0 then 2 else 1)) := by
  exact ⟨rfl, rfl⟩

open PhotonicCrystal1d in
/-- C9: `calculatePropagationMatrices` leaves the transfer-matrix table,
the stored environment constants and the parity field unchanged;
`calculateTransferMatrices` leaves the propagation-matrix table and the
stored frequency unchanged; and each setter rebuilds every entry of its
own table from scratch: its result never depends on the previously
stored table (only on the construction-time fields and its arguments). -/
theorem C9_frame_effects :
    (∀ (pc : PhotonicCrystal1d) (ω : ℝ),
      (pc.calculatePropagationMatrices ω).transferMatrices = pc.transferMatrices ∧
      (pc.calculatePropagationMatrices ω).envEpsr = pc.envEpsr ∧
      (pc.calculatePropagationMatrices ω).envMur = pc.envMur ∧
      (pc.calculatePropagationMatrices ω).last = pc.last) ∧
    (∀ (pc : PhotonicCrystal1d) (e m : ℝ),
      (pc.calculateTransferMatrices e m).propagationMatrices = pc.propagationMatrices ∧
      (pc.calculateTransferMatrices e m).omega = pc.omega) ∧
    (∀ (pc qc : PhotonicCrystal1d) (e m : ℝ),
      pc.N = qc.N → pc.Z1 = qc.Z1 → pc.Z2 = qc.Z2 →
      (pc.calculateTransferMatrices e m).transferMatrices =
        (qc.calculateTransferMatrices e m).transferMatrices) ∧
    (∀ (pc qc : PhotonicCrystal1d) (ω : ℝ),
      pc.d1 = qc.d1 → pc.d2 = qc.d2 → pc.epsr1 = qc.epsr1 → pc.epsr2 = qc.epsr2 →
      pc.mur1 = qc.mur1 → pc.mur2 = qc.mur2 →
      (pc.calculatePropagationMatrices ω).propagationMatrices =
        (qc.calculatePropagationMatrices ω).propagationMatrices) := by
  refine ⟨fun pc ω => ⟨rfl, rfl, rfl, rfl⟩, fun pc e m => ⟨rfl, rfl⟩, ?_, ?_⟩
  · intro pc qc e m hN hZ1 hZ2
    simp [PhotonicCrystal1d.calculateTransferMatrices, hN, hZ1, hZ2]
  · intro pc qc ω h1 h2 h3 h4 h5 h6
    simp [PhotonicCrystal1d.calculatePropagationMatrices, h1, h2, h3, h4, h5, h6]

open PhotonicCrystal1d in
/-- C9 witness: two concrete models that share the construction-time
fields but have different stored tables (one fresh, one already
configured with a different environment and frequency) get identical
tables from the same setter calls. -/
theorem C9_frame_effects_witness :
    ((create 2 1 1 1 1 1 1).calculateTransferMatrices 1 1).transferMatrices =
      ((readyState 2 1 1 1 1 1 1 5 1 3).calculateTransferMatrices 1 1).transferMatrices ∧
    ((create 2 1 1 1 1 1 1).calculatePropagationMatrices 1).propagationMatrices =
      ((readyState 2 1 1 1 1 1 1 5 1 3).calculatePropagationMatrices 1).propagationMatrices :=
  ⟨C9_frame_effects.2.2.1 (create 2 1 1 1 1 1 1) (readyState 2 1 1 1 1 1 1 5 1 3)
      1 1 rfl rfl rfl,
   C9_frame_effects.2.2.2 (create 2 1 1 1 1 1 1) (readyState 2 1 1 1 1 1 1 5 1 3)
      1 rfl rfl rfl rfl rfl rfl⟩

end TMM
